import Mathlib

/-!
Verification of the per-stream lifecycle and flow-control engine of an
HTTP/2-style stream layer (`stream.go`).  The Go source is embedded
shallowly: the pure transition table becomes a pure Lean function, the
stateful stream operations become explicit state-passing functions over a
`Stream` × `Conn` record pair, and the observable side effects of each
operation are collected in an `Effects` record.
-/

set_option maxRecDepth 4000

namespace Http2

/-- Frame kinds of the protocol (the `FrameType` constants of the
repository; `FrameData` … `FrameContinuation` as in RFC 7540 §6). -/
inductive FrameType
  | FrameData
  | FrameHeaders
  | FramePriority
  | FrameRSTStream
  | FrameSettings
  | FramePushPromise
  | FramePing
  | FrameGoAway
  | FrameWindowUpdate
  | FrameContinuation
deriving DecidableEq, Repr, Fintype

/-- The seven stream states (`StreamState` constants of `stream.go`). -/
inductive StreamState
  | StateIdle
  | StateReservedLocal
  | StateReservedRemote
  | StateOpen
  | StateHalfClosedLocal
  | StateHalfClosedRemote
  | StateClosed
deriving DecidableEq, Repr, Fintype

open FrameType StreamState

/-- The receive-direction arm of the base table of
`StreamState.transition` (`stream.go` lines 339–380). -/
def StreamState.recvTable (s : StreamState) (frameType : FrameType) :
    Option StreamState :=
  match s, frameType with
    | StateIdle, FrameHeaders => some StateOpen
    | StateIdle, FramePriority => some StateIdle
    | StateIdle, FramePushPromise => some StateReservedRemote
    | StateIdle, _ => none
    | StateReservedLocal, FramePriority => some StateReservedLocal
    | StateReservedLocal, FrameWindowUpdate => some StateReservedLocal
    | StateReservedLocal, FrameRSTStream => some StateClosed
    | StateReservedLocal, _ => none
    | StateHalfClosedRemote, FramePriority => some StateHalfClosedRemote
    | StateHalfClosedRemote, FrameWindowUpdate => some StateHalfClosedRemote
    | StateHalfClosedRemote, FrameRSTStream => some StateClosed
    | StateHalfClosedRemote, _ => none
    | StateReservedRemote, FrameHeaders => some StateHalfClosedLocal
    | StateReservedRemote, FramePriority => some StateReservedRemote
    | StateReservedRemote, FrameRSTStream => some StateClosed
    | StateReservedRemote, _ => none
    | StateOpen, FrameRSTStream => some StateClosed
    | StateOpen, _ => some StateOpen
    | StateHalfClosedLocal, FrameRSTStream => some StateClosed
    | StateHalfClosedLocal, _ => some StateHalfClosedLocal
    | StateClosed, FramePriority => some StateClosed
    | StateClosed, _ => none

/-- The send-direction arm of the base table of `StreamState.transition`
(`stream.go` lines 381–431). -/
def StreamState.sendTable (s : StreamState) (frameType : FrameType) :
    Option StreamState :=
  match s, frameType with
    | StateIdle, FrameHeaders => some StateOpen
    | StateIdle, FramePriority => some StateIdle
    | StateIdle, FramePushPromise => some StateReservedLocal
    | StateIdle, _ => none
    | StateReservedLocal, FrameHeaders => some StateHalfClosedRemote
    | StateReservedLocal, FramePriority => some StateReservedLocal
    | StateReservedLocal, FrameRSTStream => some StateClosed
    | StateReservedLocal, _ => none
    | StateReservedRemote, FramePriority => some StateReservedRemote
    | StateReservedRemote, FrameWindowUpdate => some StateReservedRemote
    | StateReservedRemote, FrameRSTStream => some StateClosed
    | StateReservedRemote, _ => none
    | StateHalfClosedLocal, FramePriority => some StateHalfClosedLocal
    | StateHalfClosedLocal, FrameWindowUpdate => some StateHalfClosedLocal
    | StateHalfClosedLocal, FrameRSTStream => some StateClosed
    | StateHalfClosedLocal, _ => none
    | StateOpen, FrameRSTStream => some StateClosed
    | StateOpen, _ => some StateOpen
    | StateHalfClosedRemote, FrameData => some StateHalfClosedRemote
    | StateHalfClosedRemote, FrameHeaders => some StateHalfClosedRemote
    | StateHalfClosedRemote, FramePriority => some StateHalfClosedRemote
    | StateHalfClosedRemote, FrameRSTStream => some StateClosed
    | StateHalfClosedRemote, _ => none
    | StateClosed, FramePriority => some StateClosed
    | StateClosed, _ => none

/-- The base legality/result table of `StreamState.transition`
(`stream.go` lines 337–433, before the end-of-stream overlay at lines
435–446): one arm per direction.  `none` means the (state, direction,
frame kind) combination is illegal; `some dst` is the resulting state
(which may equal the input). -/
def StreamState.baseTransition (s : StreamState) (recv : Bool) (frameType : FrameType) :
    Option StreamState :=
  if recv then s.recvTable frameType else s.sendTable frameType

/-- The end-of-stream overlay of `StreamState.transition` (`stream.go`
lines 435–446), applied to the base result when `endStream` is set. -/
def StreamState.eosOverlay (recv : Bool) (dst : StreamState) : StreamState :=
  match dst with
  | StateOpen => if recv then StateHalfClosedRemote else StateHalfClosedLocal
  | StateHalfClosedLocal => StateClosed
  | StateHalfClosedRemote => StateClosed
  | t => t

/-- The full pure transition function `StreamState.transition` of
`stream.go` (lines 337–449): base table, then the end-of-stream overlay. -/
def StreamState.transition (s : StreamState) (recv : Bool) (frameType : FrameType)
    (endStream : Bool) : Option StreamState :=
  (s.baseTransition recv frameType).map
    (fun dst => if endStream then StreamState.eosOverlay recv dst else dst)

/-- Swap Local/Remote in a state; used to phrase the "sending direction
mirrors the receiving one" sentence of the specification. -/
def swapLR : StreamState → StreamState
  | StateReservedLocal => StateReservedRemote
  | StateReservedRemote => StateReservedLocal
  | StateHalfClosedLocal => StateHalfClosedRemote
  | StateHalfClosedRemote => StateHalfClosedLocal
  | t => t

/-- Receive-direction table transcribed from the specification's words
(spec §4.1, receiving direction). -/
def specRecvTable (s : StreamState) (frameType : FrameType) : Option StreamState :=
  match s with
  | StateIdle =>
    match frameType with
    | FrameHeaders => some StateOpen
    | FramePriority => some StateIdle
    | FramePushPromise => some StateReservedRemote
    | _ => none
  | StateReservedLocal =>
    match frameType with
    | FramePriority => some StateReservedLocal
    | FrameWindowUpdate => some StateReservedLocal
    | FrameRSTStream => some StateClosed
    | _ => none
  | StateHalfClosedRemote =>
    match frameType with
    | FramePriority => some StateHalfClosedRemote
    | FrameWindowUpdate => some StateHalfClosedRemote
    | FrameRSTStream => some StateClosed
    | _ => none
  | StateReservedRemote =>
    match frameType with
    | FrameHeaders => some StateHalfClosedLocal
    | FramePriority => some StateReservedRemote
    | FrameRSTStream => some StateClosed
    | _ => none
  | StateOpen =>
    match frameType with
    | FrameRSTStream => some StateClosed
    | _ => some StateOpen
  | StateHalfClosedLocal =>
    match frameType with
    | FrameRSTStream => some StateClosed
    | _ => some StateHalfClosedLocal
  | StateClosed =>
    match frameType with
    | FramePriority => some StateClosed
    | _ => none

/-- Whole base table transcribed from the specification's words: the
receive table as stated, and the send direction as its Local/Remote
mirror, except that from HalfClosedRemote only data/headers/priority are
legal (window-update is not listed) with reset closing. -/
def specBaseTable (s : StreamState) (recv : Bool) (frameType : FrameType) :
    Option StreamState :=
  if recv then specRecvTable s frameType
  else
    match s with
    | StateHalfClosedRemote =>
      match frameType with
      | FrameData => some StateHalfClosedRemote
      | FrameHeaders => some StateHalfClosedRemote
      | FramePriority => some StateHalfClosedRemote
      | FrameRSTStream => some StateClosed
      | _ => none
    | _ => (specRecvTable (swapLR s) frameType).map swapLR

/-- End-of-stream overlay transcribed from the specification's words:
Open becomes HalfClosedRemote on a receive and HalfClosedLocal on a send,
either HalfClosed state becomes Closed, everything else is unchanged. -/
def specOverlay (recv : Bool) (dst : StreamState) : StreamState :=
  match dst with
  | StateOpen => if recv then StateHalfClosedRemote else StateHalfClosedLocal
  | StateHalfClosedLocal => StateClosed
  | StateHalfClosedRemote => StateClosed
  | t => t

/-- C1: the base transition table of the code coincides with the
two-direction legality/result table stated in spec §4.1 (receive table as
written; send table its Local/Remote mirror with the HalfClosedRemote
exception), for every state, direction and frame kind. -/
theorem c1_base_table_matches_spec :
    ∀ (s : StreamState) (recv : Bool) (frameType : FrameType),
      s.baseTransition recv frameType = specBaseTable s recv frameType := by
  decide

/-- C2: with `endStream = true`, every legal transition applies the
end-of-stream overlay after the base transition: a base result of Open
becomes HalfClosedRemote (receive) or HalfClosedLocal (send), a base
result of either HalfClosed state becomes Closed, and every other base
result is unchanged. -/
theorem c2_eos_overlay_matches_spec :
    ∀ (s : StreamState) (recv : Bool) (frameType : FrameType),
      s.transition recv frameType true =
        (s.baseTransition recv frameType).map (specOverlay recv) := by
  decide

/-- The receive flow-control window record, with the three fields that
`stream.go` line 208 initialises (`win`, `winUpperBound`, `processedWin`);
the `flowController` methods themselves live outside `stream.go`. -/
structure FlowController where
  win : Int
  winUpperBound : Int
  processedWin : Int
deriving DecidableEq, Repr

/-- Modelled from the spec: the `remoteFlowController` type and its
`incrementInitialWindow` / `cancel` / `incrementWindow` / `window` methods
are outside `stream.go`.  Per the spec, the send window is created sized
to the current peer-advertised initial window, and cancelling/zeroing it
leaves no further bytes grantable. -/
structure RemoteFlowController where
  window : Int
  cancelled : Bool
deriving DecidableEq, Repr

/-- The connection state visible to `stream.go`: which side we are, the
two advertised initial window sizes, the two active-stream counters
(uint32 in Go), and whether this stream sits in the connection table. -/
structure Conn where
  server : Bool
  initialWindowSize : Int
  remoteInitialWindowSize : Int
  numStreams : Nat
  remoteNumStreams : Nat
  hasStream : Bool
deriving DecidableEq, Repr

/-- The pending outbound frame slot (`s.Frame`): its kind and its
end-of-stream flag, the two attributes `stream.go` reads from it. -/
structure PendingFrame where
  frameType : FrameType
  endStream : Bool
deriving DecidableEq, Repr

/-- The `stream` struct fields that the verified operations touch. -/
structure Stream where
  id : Nat
  state : StreamState
  frame : PendingFrame
  lastWritten : FrameType
  sawEOS : Bool
  resetSent : Bool
  resetReceived : Bool
  recvFlow : Option FlowController
  sendFlow : Option RemoteFlowController
  closeChClosed : Bool
deriving DecidableEq, Repr

/-- The observable side effects of one `compareAndSwapState` call. -/
structure Effects where
  incLocal : Bool := false
  incRemote : Bool := false
  decLocal : Bool := false
  decRemote : Bool := false
  addedStream : Bool := false
  removedStream : Bool := false
  closedBroadcast : Bool := false
  cancelledWriter : Bool := false
  sendFlowCancelled : Bool := false
  recvFlowReturned : Bool := false
deriving DecidableEq, Repr

/-- No side effects. -/
def Effects.noEffects : Effects := {}

/-- `stream.local()` (`stream.go` lines 183–185):
`s.conn.server == ((s.id & 1) == 0)`. -/
def Stream.isLocal (s : Stream) (c : Conn) : Bool :=
  c.server == (s.id % 2 == 0)

/-- uint32 increment (`atomic.AddUint32(x, 1)`). -/
def u32add1 (n : Nat) : Nat := (n + 1) % 2 ^ 32

/-- uint32 decrement (`atomic.AddUint32(x, ^uint32(0))`). -/
def u32sub1 (n : Nat) : Nat := (n + (2 ^ 32 - 1)) % 2 ^ 32

/-- `stream.compareAndSwapState` (`stream.go` lines 191–254): the swap
succeeds exactly when the current state equals `fr` (sequential semantics
of the atomic compare-and-swap), and on success the side effects keyed on
the `(fr, dst)` pair run.  In the Open→HalfClosedLocal branch Go calls
`s.sendFlow.cancel()` without a nil check (the activation invariant
guarantees presence); the model applies the cancellation to the window
when present. -/
def Stream.compareAndSwapState (s : Stream) (c : Conn) (fr dst : StreamState) :
    Stream × Conn × Effects × Bool :=
  if s.state = fr then
    let s1 := { s with state := dst }
    match dst with
    | StateReservedLocal | StateReservedRemote =>
      if fr = StateIdle then
        (s1, { c with hasStream := true }, { addedStream := true }, true)
      else (s1, c, {}, true)
    | StateOpen | StateHalfClosedLocal | StateHalfClosedRemote =>
      match fr with
      | StateIdle | StateReservedLocal | StateReservedRemote =>
        let cw : Conn × Effects :=
          if s.isLocal c then
            ({ c with numStreams := u32add1 c.numStreams }, { incLocal := true })
          else
            ({ c with remoteNumStreams := u32add1 c.remoteNumStreams }, { incRemote := true })
        let w := c.initialWindowSize
        let s2 := { s1 with recvFlow := some { win := w, winUpperBound := w, processedWin := w } }
        let s3 :=
          if dst ≠ StateHalfClosedLocal then
            { s2 with sendFlow := some { window := c.remoteInitialWindowSize, cancelled := false } }
          else s2
        if fr = StateIdle then
          (s3, { cw.1 with hasStream := true }, { cw.2 with addedStream := true }, true)
        else (s3, cw.1, cw.2, true)
      | StateOpen =>
        if dst = StateHalfClosedLocal then
          ({ s1 with sendFlow := s1.sendFlow.map (fun _ => { window := 0, cancelled := true }) },
            c, { cancelledWriter := true, sendFlowCancelled := true }, true)
        else (s1, c, {}, true)
      | _ => (s1, c, {}, true)
    | StateClosed =>
      let cw : Conn × Effects :=
        match fr with
        | StateOpen | StateHalfClosedLocal | StateHalfClosedRemote =>
          if s.isLocal c then
            ({ c with numStreams := u32sub1 c.numStreams }, { decLocal := true })
          else
            ({ c with remoteNumStreams := u32sub1 c.remoteNumStreams }, { decRemote := true })
        | _ => (c, {})
      if fr ≠ StateClosed then
        ({ s1 with
            closeChClosed := true
            sendFlow := s1.sendFlow.map (fun _ => { window := 0, cancelled := true }) },
          { cw.1 with hasStream := false },
          { cw.2 with
            closedBroadcast := true
            cancelledWriter := true
            sendFlowCancelled := s.sendFlow.isSome
            recvFlowReturned := s.recvFlow.isSome
            removedStream := true }, true)
      else (s1, cw.1, cw.2, true)
    | StateIdle => (s1, c, {}, true)
  else (s, c, {}, false)

/-- Error codes used by the illegality policy (`ErrCodeStreamClosed`,
`ErrCodeProtocol`). -/
inductive ErrCode
  | errCodeStreamClosed
  | errCodeProtocol
deriving DecidableEq, Repr, Fintype

/-- The two message shapes produced by `stream.transition`'s error path:
`fmt.Errorf("stream %d already closed", s.id)` and
`fmt.Errorf("bad stream state %s", s.state)`. -/
inductive ErrMsg
  | alreadyClosed (id : Nat)
  | badState (st : StreamState)
deriving DecidableEq, Repr

/-- The errors `stream.transition` can return: a bare error (send side),
a `StreamError` carrying a code and the stream id, or a `ConnError`
carrying a code. -/
inductive TransitionError
  | plainError (msg : ErrMsg)
  | streamError (msg : ErrMsg) (code : ErrCode) (sid : Nat)
  | connError (msg : ErrMsg) (code : ErrCode)
deriving DecidableEq, Repr

/-- The classification of an illegal transition attempt, transcribed from
the `!ok` branch of `stream.transition` (`stream.go` lines 261–321). -/
def Stream.classifyIllegal (s : Stream) (recv : Bool) (frameType : FrameType) :
    TransitionError :=
  if !recv then
    if s.state = StateClosed then .plainError (.alreadyClosed s.id)
    else .plainError (.badState s.state)
  else if s.resetReceived then .streamError (.alreadyClosed s.id) .errCodeStreamClosed s.id
  else if s.resetSent then .streamError (.alreadyClosed s.id) .errCodeStreamClosed s.id
  else
    match s.state with
    | StateHalfClosedRemote => .connError (.alreadyClosed s.id) .errCodeStreamClosed
    | StateClosed =>
      match frameType with
      | FrameRSTStream => .connError (.alreadyClosed s.id) .errCodeProtocol
      | FrameWindowUpdate => .connError (.alreadyClosed s.id) .errCodeProtocol
      | _ => .connError (.badState s.state) .errCodeProtocol
    | _ => .connError (.badState s.state) .errCodeProtocol

/-- `stream.transition` (`stream.go` lines 256–335).  Sequentially the
compare-and-swap loop succeeds on its first iteration (the state was just
read), so the method computes the table transition, classifies illegality
without touching any state, and on success applies the swap's side
effects and records the sticky reset flag when a reset frame closed the
stream. -/
def Stream.transition (s : Stream) (c : Conn) (recv : Bool) (frameType : FrameType)
    (endStream : Bool) : Stream × Conn × Effects × Except TransitionError StreamState :=
  match s.state.transition recv frameType endStream with
  | none => (s, c, {}, .error (s.classifyIllegal recv frameType))
  | some dst =>
    let r := s.compareAndSwapState c s.state dst
    let s2 :=
      if dst = StateClosed ∧ frameType = FrameRSTStream then
        if recv then { r.1 with resetReceived := true } else { r.1 with resetSent := true }
      else r.1
    (s2, r.2.1, r.2.2.1, .ok dst)

/-- `stream.close` (`stream.go` lines 174–181): retry a compare-and-swap
of the freshly read state to Closed until it lands; sequentially the
first iteration succeeds. -/
def Stream.close (s : Stream) (c : Conn) : Stream × Conn × Effects :=
  let r := s.compareAndSwapState c s.state StateClosed
  (r.1, r.2.1, r.2.2.1)

/-- The error outcomes distinguished by the spec's illegality policy:
stream-level "already closed" naming the stream, a generic stream-level
bad-state failure, a stream-error of kind STREAM_CLOSED, a connection
error of kind STREAM_CLOSED, a connection error of kind PROTOCOL_ERROR
(plus a slot for stream-errors of other kinds, never produced here). -/
inductive ErrSummary
  | streamLevelAlreadyClosed (sid : Nat)
  | streamLevelBadState
  | streamErrorStreamClosed (sid : Nat)
  | streamErrorOther (sid : Nat)
  | connErrorStreamClosed
  | connErrorProtocol
deriving DecidableEq, Repr

/-- Abstraction of a concrete transition error to the spec's taxonomy. -/
def TransitionError.summary : TransitionError → ErrSummary
  | .plainError (.alreadyClosed sid) => .streamLevelAlreadyClosed sid
  | .plainError (.badState _) => .streamLevelBadState
  | .streamError _ .errCodeStreamClosed sid => .streamErrorStreamClosed sid
  | .streamError _ .errCodeProtocol sid => .streamErrorOther sid
  | .connError _ .errCodeStreamClosed => .connErrorStreamClosed
  | .connError _ .errCodeProtocol => .connErrorProtocol

/-- The illegality policy transcribed from the claim's words: on a send,
"already closed" naming the stream if Closed else generic bad-state; on a
receive, stream-error STREAM_CLOSED if resetReceived, else stream-error
STREAM_CLOSED if resetSent, else connection STREAM_CLOSED at
HalfClosedRemote, else connection PROTOCOL_ERROR at Closed for
reset/window-update, else connection PROTOCOL_ERROR. -/
def specClassify (recv : Bool) (st : StreamState) (resetReceived resetSent : Bool)
    (frameType : FrameType) (sid : Nat) : ErrSummary :=
  if !recv then
    if st = StateClosed then .streamLevelAlreadyClosed sid else .streamLevelBadState
  else if resetReceived then .streamErrorStreamClosed sid
  else if resetSent then .streamErrorStreamClosed sid
  else if st = StateHalfClosedRemote then .connErrorStreamClosed
  else if st = StateClosed ∧ (frameType = FrameRSTStream ∨ frameType = FrameWindowUpdate) then
    .connErrorProtocol
  else .connErrorProtocol

/-- C3: when the base rule is illegal, `stream.transition` leaves the
stream and connection untouched, performs no side effects, and returns
the error classified exactly by the spec's priority order. -/
theorem c3_illegal_classification :
    ∀ (s : Stream) (c : Conn) (recv : Bool) (frameType : FrameType) (endStream : Bool),
      s.state.transition recv frameType endStream = none →
      s.transition c recv frameType endStream =
          (s, c, Effects.noEffects, .error (s.classifyIllegal recv frameType)) ∧
        (s.classifyIllegal recv frameType).summary =
          specClassify recv s.state s.resetReceived s.resetSent frameType s.id := by
  intro s c recv frameType endStream hIll
  constructor
  · simp [Stream.transition, hIll, Effects.noEffects]
  · rcases s with ⟨sid, st, fr, lw, eos, rs, rr, rf, sf, cc⟩
    cases recv <;> cases st <;> cases frameType <;> cases rs <;> cases rr <;> rfl

/-- Witness for C3 at a concrete illegal attempt: receiving a data frame
in state Closed with no reset flags set. -/
theorem c3_illegal_classification_witness :
    (Stream.transition
        { id := 1, state := StateClosed, frame := ⟨FrameData, false⟩,
          lastWritten := FrameData, sawEOS := false, resetSent := false,
          resetReceived := false, recvFlow := none, sendFlow := none,
          closeChClosed := true }
        { server := false, initialWindowSize := 65535, remoteInitialWindowSize := 65535,
          numStreams := 0, remoteNumStreams := 0, hasStream := false }
        true FrameData false).2.2.2 =
      .error (.connError (.badState StateClosed) .errCodeProtocol) := by
  have h := c3_illegal_classification
    { id := 1, state := StateClosed, frame := ⟨FrameData, false⟩,
      lastWritten := FrameData, sawEOS := false, resetSent := false,
      resetReceived := false, recvFlow := none, sendFlow := none,
      closeChClosed := true }
    { server := false, initialWindowSize := 65535, remoteInitialWindowSize := 65535,
      numStreams := 0, remoteNumStreams := 0, hasStream := false }
    true FrameData false (by decide)
  rw [h.1]
  rfl

/-- C6: Closed is terminal for every state-changing operation: a priority
frame is accepted as a no-op, every other frame is rejected with the
stream, connection and effects untouched, and `close` leaves the state
Closed. -/
theorem c6_closed_terminal :
    ∀ (s : Stream) (c : Conn) (recv : Bool) (frameType : FrameType) (endStream : Bool),
      s.state = StateClosed →
      (s.transition c recv frameType endStream).1.state = StateClosed ∧
        (frameType = FramePriority →
          (s.transition c recv frameType endStream).2.2.2 = .ok StateClosed) ∧
        (frameType ≠ FramePriority →
          s.transition c recv frameType endStream =
            (s, c, Effects.noEffects, .error (s.classifyIllegal recv frameType))) ∧
        (s.close c).1.state = StateClosed := by
  intro s c recv frameType endStream h
  rcases s with ⟨sid, st, fr, lw, eos, rs, rr, rf, sf, cc⟩
  simp only at h
  subst h
  cases recv <;> cases frameType <;> cases endStream <;>
    simp [Stream.transition, StreamState.transition, StreamState.baseTransition,
      StreamState.recvTable, StreamState.sendTable, StreamState.eosOverlay,
      Stream.compareAndSwapState, Stream.close, Effects.noEffects]

/-- Witness for C6: a priority frame received in state Closed is a no-op
and close keeps the state Closed. -/
theorem c6_closed_terminal_witness :
    (Stream.transition
        { id := 3, state := StateClosed, frame := ⟨FrameData, false⟩,
          lastWritten := FrameData, sawEOS := false, resetSent := false,
          resetReceived := false, recvFlow := none, sendFlow := none,
          closeChClosed := true }
        { server := false, initialWindowSize := 65535, remoteInitialWindowSize := 65535,
          numStreams := 0, remoteNumStreams := 0, hasStream := false }
        true FramePriority false).1.state = StateClosed := by
  have h := c6_closed_terminal
    { id := 3, state := StateClosed, frame := ⟨FrameData, false⟩,
      lastWritten := FrameData, sawEOS := false, resetSent := false,
      resetReceived := false, recvFlow := none, sendFlow := none,
      closeChClosed := true }
    { server := false, initialWindowSize := 65535, remoteInitialWindowSize := 65535,
      numStreams := 0, remoteNumStreams := 0, hasStream := false }
    true FramePriority false rfl
  exact h.1

/-- The three not-yet-active states (before any activation swap). -/
def preActive (st : StreamState) : Bool :=
  match st with
  | StateIdle => true
  | StateReservedLocal => true
  | StateReservedRemote => true
  | _ => false

/-- The three active states, as in `stream.active()` (`stream.go` lines
48–55). -/
def activeState (st : StreamState) : Bool :=
  match st with
  | StateOpen => true
  | StateHalfClosedLocal => true
  | StateHalfClosedRemote => true
  | _ => false

/-- Lifecycle rank: 0 before activation, 1 while active, 2 once Closed. -/
def rank (st : StreamState) : Nat :=
  match st with
  | StateIdle => 0
  | StateReservedLocal => 0
  | StateReservedRemote => 0
  | StateOpen => 1
  | StateHalfClosedLocal => 1
  | StateHalfClosedRemote => 1
  | StateClosed => 2

/-- Whether either active-stream counter was incremented. -/
def Effects.incremented (e : Effects) : Bool := e.incLocal || e.incRemote

/-- Whether either active-stream counter was decremented. -/
def Effects.decremented (e : Effects) : Bool := e.decLocal || e.decRemote

/-- Full characterisation of a successful `compareAndSwapState`: the
resulting stream fields and every effect flag as a function of the
`(fr, dst)` pair and the pre-state. -/
theorem cas_spec (s : Stream) (c : Conn) (fr dst : StreamState) (h : s.state = fr) :
    (s.compareAndSwapState c fr dst).2.2.2 = true ∧
    (s.compareAndSwapState c fr dst).1.state = dst ∧
    (s.compareAndSwapState c fr dst).1.id = s.id ∧
    (s.compareAndSwapState c fr dst).1.frame = s.frame ∧
    (s.compareAndSwapState c fr dst).1.lastWritten = s.lastWritten ∧
    (s.compareAndSwapState c fr dst).1.sawEOS = s.sawEOS ∧
    (s.compareAndSwapState c fr dst).1.resetSent = s.resetSent ∧
    (s.compareAndSwapState c fr dst).1.resetReceived = s.resetReceived ∧
    (s.compareAndSwapState c fr dst).1.recvFlow =
      (if preActive fr && activeState dst then
        some { win := c.initialWindowSize, winUpperBound := c.initialWindowSize,
               processedWin := c.initialWindowSize }
      else s.recvFlow) ∧
    (s.compareAndSwapState c fr dst).1.sendFlow =
      (if preActive fr && activeState dst then
        (if dst = StateHalfClosedLocal then s.sendFlow
         else some { window := c.remoteInitialWindowSize, cancelled := false })
      else if (fr == StateOpen && dst == StateHalfClosedLocal) ||
              (fr != StateClosed && dst == StateClosed) then
        s.sendFlow.map (fun _ => { window := 0, cancelled := true })
      else s.sendFlow) ∧
    (s.compareAndSwapState c fr dst).2.2.1.incremented = (preActive fr && activeState dst) ∧
    (s.compareAndSwapState c fr dst).2.2.1.decremented = (activeState fr && dst == StateClosed) ∧
    (s.compareAndSwapState c fr dst).2.2.1.closedBroadcast =
      (fr != StateClosed && dst == StateClosed) ∧
    (s.compareAndSwapState c fr dst).2.2.1.removedStream =
      (fr != StateClosed && dst == StateClosed) ∧
    (s.compareAndSwapState c fr dst).2.2.1.recvFlowReturned =
      (fr != StateClosed && dst == StateClosed && s.recvFlow.isSome) ∧
    (s.compareAndSwapState c fr dst).2.2.1.cancelledWriter =
      ((fr != StateClosed && dst == StateClosed) ||
        (fr == StateOpen && dst == StateHalfClosedLocal)) ∧
    (s.compareAndSwapState c fr dst).2.2.1.sendFlowCancelled =
      ((fr != StateClosed && dst == StateClosed && s.sendFlow.isSome) ||
        (fr == StateOpen && dst == StateHalfClosedLocal)) ∧
    (s.compareAndSwapState c fr dst).2.2.1.addedStream =
      (fr == StateIdle &&
        (dst == StateReservedLocal || dst == StateReservedRemote || activeState dst)) ∧
    (s.compareAndSwapState c fr dst).2.2.1.incLocal =
      (preActive fr && activeState dst && s.isLocal c) ∧
    (s.compareAndSwapState c fr dst).2.2.1.incRemote =
      (preActive fr && activeState dst && !(s.isLocal c)) ∧
    (s.compareAndSwapState c fr dst).2.2.1.decLocal =
      (activeState fr && dst == StateClosed && s.isLocal c) ∧
    (s.compareAndSwapState c fr dst).2.2.1.decRemote =
      (activeState fr && dst == StateClosed && !(s.isLocal c)) := by
  cases hL : s.isLocal c <;> cases fr <;> cases dst <;>
    simp [Stream.compareAndSwapState, h, hL, preActive, activeState,
      Effects.incremented, Effects.decremented] <;>
    (try (cases s.sendFlow <;> simp))

/-- The operations of the repository that can change the state field:
`stream.transition` (either direction, any frame kind and end-of-stream
flag) and `stream.close`. -/
inductive Op
  | transitionOp (recv : Bool) (frameType : FrameType) (endStream : Bool)
  | closeOp
deriving DecidableEq, Repr

/-- Apply one operation, returning the new stream and connection and the
side effects of the swap it performed (if any). -/
def applyOp (s : Stream) (c : Conn) : Op → Stream × Conn × Effects
  | .transitionOp recv frameType endStream =>
    let r := s.transition c recv frameType endStream
    (r.1, r.2.1, r.2.2.1)
  | .closeOp => s.close c

/-- Run a sequence of operations, collecting each one's effects. -/
def runOps (s : Stream) (c : Conn) : List Op → (Stream × Conn) × List Effects
  | [] => ((s, c), [])
  | op :: rest =>
    let r := applyOp s c op
    let t := runOps r.1 r.2.1 rest
    (t.1, r.2.2 :: t.2)

/-- A freshly referenced stream: the Go zero value of the struct plus its
id (spec §3: created in Idle, flow windows absent until activation, flags
clear; `FrameData` is the zero `FrameType`). -/
def newStream (sid : Nat) : Stream :=
  { id := sid, state := StateIdle,
    frame := { frameType := FrameData, endStream := false },
    lastWritten := FrameData, sawEOS := false, resetSent := false,
    resetReceived := false, recvFlow := none, sendFlow := none,
    closeChClosed := false }

/-- Count the effects in a trace whose flag `f` is set. -/
def countTrue (f : Effects → Bool) : List Effects → Nat
  | [] => 0
  | e :: rest => (if f e then 1 else 0) + countTrue f rest

/-- Every legal table transition is rank-monotone. -/
theorem transition_rank_mono :
    ∀ (st : StreamState) (recv : Bool) (frameType : FrameType) (endStream : Bool)
      (dst : StreamState),
      st.transition recv frameType endStream = some dst → rank st ≤ rank dst := by
  decide

/-- Rank is at most 2. -/
theorem rank_le_two : ∀ st : StreamState, rank st ≤ 2 := by decide

/-- The increment keying is exactly a rank-0-to-rank-1 swap. -/
theorem incFlag_rank :
    ∀ fr dst : StreamState,
      (preActive fr && activeState dst) = true ↔ (rank fr = 0 ∧ rank dst = 1) := by
  decide

/-- The decrement keying is exactly a rank-1-to-rank-2 swap. -/
theorem decFlag_rank :
    ∀ fr dst : StreamState,
      (activeState fr && dst == StateClosed) = true ↔ (rank fr = 1 ∧ rank dst = 2) := by
  decide

/-- The first-closure keying is exactly a below-rank-2-to-rank-2 swap. -/
theorem cloFlag_rank :
    ∀ fr dst : StreamState,
      (fr != StateClosed && dst == StateClosed) = true ↔ (rank fr ≤ 1 ∧ rank dst = 2) := by
  decide

/-- Per-operation counting facts: rank never decreases, and the
increment / decrement / closure-broadcast flags fire exactly on the
rank 0→1, 1→2 and (≤1)→2 swaps respectively. -/
theorem step_spec (s : Stream) (c : Conn) (op : Op) :
    rank s.state ≤ rank (applyOp s c op).1.state ∧
    ((applyOp s c op).2.2.incremented = true ↔
      (rank s.state = 0 ∧ rank (applyOp s c op).1.state = 1)) ∧
    ((applyOp s c op).2.2.decremented = true ↔
      (rank s.state = 1 ∧ rank (applyOp s c op).1.state = 2)) ∧
    ((applyOp s c op).2.2.closedBroadcast = true ↔
      (rank s.state ≤ 1 ∧ rank (applyOp s c op).1.state = 2)) := by
  cases op with
  | closeOp =>
    obtain ⟨hswap, hstate, hrest⟩ := cas_spec s c s.state StateClosed rfl
    obtain ⟨_, _, _, _, _, _, _, hsend, hinc, hdec, hclo, _⟩ := hrest
    have hA : (applyOp s c .closeOp).1 = (s.compareAndSwapState c s.state StateClosed).1 := rfl
    have hE : (applyOp s c .closeOp).2.2 =
        (s.compareAndSwapState c s.state StateClosed).2.2.1 := rfl
    rw [hA, hE, hstate, hinc, hdec, hclo]
    refine ⟨rank_le_two _, ?_, ?_, ?_⟩
    · rw [incFlag_rank]
    · exact decFlag_rank s.state StateClosed
    · exact cloFlag_rank s.state StateClosed
  | transitionOp recv frameType endStream =>
    rcases hT : s.state.transition recv frameType endStream with _ | dst
    · have hA : applyOp s c (.transitionOp recv frameType endStream) = (s, c, Effects.noEffects) := by
        simp [applyOp, Stream.transition, hT, Effects.noEffects]
      rw [hA]
      refine ⟨le_refl _, ?_, ?_, ?_⟩ <;>
        simp [Effects.noEffects, Effects.incremented, Effects.decremented] <;> omega
    · obtain ⟨hswap, hstate, hrest⟩ := cas_spec s c s.state dst rfl
      obtain ⟨_, _, _, _, _, _, _, hsend, hinc, hdec, hclo, _⟩ := hrest
      have hA : (applyOp s c (.transitionOp recv frameType endStream)).1.state =
          (s.compareAndSwapState c s.state dst).1.state := by
        simp only [applyOp, Stream.transition, hT]
        split <;> (try split) <;> rfl
      have hE : (applyOp s c (.transitionOp recv frameType endStream)).2.2 =
          (s.compareAndSwapState c s.state dst).2.2.1 := by
        simp only [applyOp, Stream.transition, hT]
      rw [hA, hE, hstate, hinc, hdec, hclo]
      exact ⟨transition_rank_mono _ _ _ _ _ hT, incFlag_rank _ _, decFlag_rank _ _,
        cloFlag_rank _ _⟩

/-- Invariant tying the stream's lifecycle rank to the cumulative effect
counts of its trace: before activation nothing has fired, while active
exactly one increment has fired, once Closed the increment (if any) has
been matched by exactly one decrement and the closure broadcast has fired
exactly once. -/
def goodCounts (st : StreamState) (i d b : Nat) : Prop :=
  (rank st = 0 → i = 0 ∧ d = 0 ∧ b = 0) ∧
  (rank st = 1 → i = 1 ∧ d = 0 ∧ b = 0) ∧
  (rank st = 2 → i = d ∧ i ≤ 1 ∧ b = 1)

/-- One operation preserves the counting invariant. -/
theorem step_good (s : Stream) (c : Conn) (op : Op) (i d b : Nat)
    (h : goodCounts s.state i d b) :
    goodCounts (applyOp s c op).1.state
      (i + (if (applyOp s c op).2.2.incremented then 1 else 0))
      (d + (if (applyOp s c op).2.2.decremented then 1 else 0))
      (b + (if (applyOp s c op).2.2.closedBroadcast then 1 else 0)) := by
  obtain ⟨hmono, hinc, hdec, hclo⟩ := step_spec s c op
  have h1 := rank_le_two s.state
  have h2 := rank_le_two (applyOp s c op).1.state
  unfold goodCounts at h ⊢
  cases hI : (applyOp s c op).2.2.incremented <;>
    cases hD : (applyOp s c op).2.2.decremented <;>
    cases hB : (applyOp s c op).2.2.closedBroadcast <;>
    rw [hI] at hinc <;> rw [hD] at hdec <;> rw [hB] at hclo <;>
    simp only [Bool.false_eq_true, false_iff, true_iff, not_and, if_true,
      if_false] at hinc hdec hclo <;>
    simp only [Bool.false_eq_true, if_true, if_false, ite_true, ite_false] <;>
    omega

/-- Running a trace preserves the counting invariant. -/
theorem run_counts :
    ∀ (ops : List Op) (s : Stream) (c : Conn) (i d b : Nat),
      goodCounts s.state i d b →
      goodCounts (runOps s c ops).1.1.state
        (i + countTrue Effects.incremented (runOps s c ops).2)
        (d + countTrue Effects.decremented (runOps s c ops).2)
        (b + countTrue Effects.closedBroadcast (runOps s c ops).2) := by
  intro ops
  induction ops with
  | nil => intro s c i d b h; simpa [runOps, countTrue] using h
  | cons op rest ih =>
    intro s c i d b h
    have hstep := step_good s c op i d b h
    have hrec := ih (applyOp s c op).1 (applyOp s c op).2.1 _ _ _ hstep
    simpa [runOps, countTrue, Nat.add_assoc] using hrec

/-- Rank never decreases along a trace. -/
theorem run_rank_mono :
    ∀ (ops : List Op) (s : Stream) (c : Conn),
      rank s.state ≤ rank (runOps s c ops).1.1.state := by
  intro ops
  induction ops with
  | nil => intro s c; exact le_refl _
  | cons op rest ih =>
    intro s c
    exact le_trans (step_spec s c op).1 (ih (applyOp s c op).1 (applyOp s c op).2.1)

/-- A rank-0 state is not active. -/
theorem rank0_not_active : ∀ st : StreamState, rank st = 0 → activeState st = false := by
  decide

/-- A rank-0 state is not HalfClosedLocal. -/
theorem rank0_ne_hcl :
    ∀ st : StreamState, rank st = 0 → (st == StateHalfClosedLocal) = false := by
  decide

/-- A rank-0 state is not Closed. -/
theorem rank0_ne_closed :
    ∀ st : StreamState, rank st = 0 → (st == StateClosed) = false := by
  decide

/-- A step that lands in a rank-0 state touches neither flow window. -/
theorem step_flows (s : Stream) (c : Conn) (op : Op)
    (h : rank (applyOp s c op).1.state = 0) :
    (applyOp s c op).1.recvFlow = s.recvFlow ∧
      (applyOp s c op).1.sendFlow = s.sendFlow := by
  cases op with
  | closeOp =>
    exfalso
    have hstate : (applyOp s c Op.closeOp).1.state = StateClosed :=
      (cas_spec s c s.state StateClosed rfl).2.1
    rw [hstate] at h
    exact absurd h (by decide)
  | transitionOp recv frameType endStream =>
    rcases hT : s.state.transition recv frameType endStream with _ | dst
    · constructor <;> simp [applyOp, Stream.transition, hT]
    · obtain ⟨hswap, hstate, hrest⟩ := cas_spec s c s.state dst rfl
      obtain ⟨_, _, _, _, _, _, hrecv, hsend, _⟩ := hrest
      have hA1 : (applyOp s c (.transitionOp recv frameType endStream)).1.state =
          (s.compareAndSwapState c s.state dst).1.state := by
        simp only [applyOp, Stream.transition, hT]
        split <;> (try split) <;> rfl
      have hAr : (applyOp s c (.transitionOp recv frameType endStream)).1.recvFlow =
          (s.compareAndSwapState c s.state dst).1.recvFlow := by
        simp only [applyOp, Stream.transition, hT]
        split <;> (try split) <;> rfl
      have hAs : (applyOp s c (.transitionOp recv frameType endStream)).1.sendFlow =
          (s.compareAndSwapState c s.state dst).1.sendFlow := by
        simp only [applyOp, Stream.transition, hT]
        split <;> (try split) <;> rfl
      have hd : rank dst = 0 := by rw [hA1, hstate] at h; exact h
      have hact := rank0_not_active dst hd
      have hhcl := rank0_ne_hcl dst hd
      have hcl := rank0_ne_closed dst hd
      constructor
      · rw [hAr, hrecv, hact]
        simp
      · rw [hAs, hsend, hact, hhcl, hcl]
        simp

/-- A trace that ends in a rank-0 state never touched the flow windows. -/
theorem run_flows :
    ∀ (ops : List Op) (s : Stream) (c : Conn),
      rank (runOps s c ops).1.1.state = 0 →
      (runOps s c ops).1.1.recvFlow = s.recvFlow ∧
        (runOps s c ops).1.1.sendFlow = s.sendFlow := by
  intro ops
  induction ops with
  | nil => intro s c h; exact ⟨rfl, rfl⟩
  | cons op rest ih =>
    intro s c h
    have hG : (runOps s c (op :: rest)).1.1 =
        (runOps (applyOp s c op).1 (applyOp s c op).2.1 rest).1.1 := rfl
    rw [hG] at h ⊢
    have hmono := run_rank_mono rest (applyOp s c op).1 (applyOp s c op).2.1
    have hmid : rank (applyOp s c op).1.state = 0 := by omega
    have hstep := step_flows s c op hmid
    have hrest := ih (applyOp s c op).1 (applyOp s c op).2.1 h
    exact ⟨hrest.1.trans hstep.1, hrest.2.trans hstep.2⟩

/-- A state is active exactly at rank 1. -/
theorem active_iff_rank1 : ∀ st : StreamState, activeState st = true ↔ rank st = 1 := by
  decide

/-- A state is Closed exactly at rank 2. -/
theorem closed_iff_rank2 : ∀ st : StreamState, st = StateClosed ↔ rank st = 2 := by
  decide

/-- A pre-active state has rank 0. -/
theorem preActive_rank0 : ∀ st : StreamState, preActive st = true → rank st = 0 := by
  decide

/-- C5 counterexample: the successful swap Open → HalfClosedLocal (here
driven by sending a data frame with end-of-stream set) cancels the
waiting writer and cancels/zeroes the send window although it is not a
swap into Closed, so the claim that those effects run only on the first
swap into Closed is false. -/
theorem c5_counterexample :
    ((Stream.transition
        { id := 1, state := StateOpen, frame := { frameType := FrameData, endStream := true },
          lastWritten := FrameData, sawEOS := false, resetSent := false,
          resetReceived := false,
          recvFlow := some { win := 65535, winUpperBound := 65535, processedWin := 65535 },
          sendFlow := some { window := 65535, cancelled := false }, closeChClosed := false }
        { server := false, initialWindowSize := 65535, remoteInitialWindowSize := 65535,
          numStreams := 1, remoteNumStreams := 0, hasStream := true }
        false FrameData true).2.2.1.cancelledWriter = true) ∧
    ((Stream.transition
        { id := 1, state := StateOpen, frame := { frameType := FrameData, endStream := true },
          lastWritten := FrameData, sawEOS := false, resetSent := false,
          resetReceived := false,
          recvFlow := some { win := 65535, winUpperBound := 65535, processedWin := 65535 },
          sendFlow := some { window := 65535, cancelled := false }, closeChClosed := false }
        { server := false, initialWindowSize := 65535, remoteInitialWindowSize := 65535,
          numStreams := 1, remoteNumStreams := 0, hasStream := true }
        false FrameData true).2.2.1.sendFlowCancelled = true) ∧
    ((Stream.transition
        { id := 1, state := StateOpen, frame := { frameType := FrameData, endStream := true },
          lastWritten := FrameData, sawEOS := false, resetSent := false,
          resetReceived := false,
          recvFlow := some { win := 65535, winUpperBound := 65535, processedWin := 65535 },
          sendFlow := some { window := 65535, cancelled := false }, closeChClosed := false }
        { server := false, initialWindowSize := 65535, remoteInitialWindowSize := 65535,
          numStreams := 1, remoteNumStreams := 0, hasStream := true }
        false FrameData true).1.state = StateHalfClosedLocal) ∧
    StateHalfClosedLocal ≠ StateClosed := by
  decide

/-- C5 (amended): side effects run only on a winning swap and are keyed
on the `(fr, dst)` pair — a failed swap does nothing; the counter is
incremented exactly on the pre-active→active swap and decremented exactly
on the active→Closed swap; the closure broadcast, table removal and
receive-window return run only on the first swap into Closed; the
writer-cancellation and send-window cancel/zero run on the first swap
into Closed and also on the Open→HalfClosedLocal swap; a Closed→Closed
swap performs no effects; and along any trace of operations from a fresh
stream the increment fires at most once, the decrement at most once and
only after the increment, and the broadcast exactly once once Closed. -/
theorem c5_effects_exactly_once :
    (∀ (s : Stream) (c : Conn) (fr dst : StreamState),
        s.state ≠ fr → s.compareAndSwapState c fr dst = (s, c, Effects.noEffects, false)) ∧
    (∀ (s : Stream) (c : Conn) (fr dst : StreamState),
        s.state = fr →
        (((s.compareAndSwapState c fr dst).2.2.1.incremented = true) ↔
          (preActive fr = true ∧ activeState dst = true)) ∧
        (((s.compareAndSwapState c fr dst).2.2.1.decremented = true) ↔
          (activeState fr = true ∧ dst = StateClosed)) ∧
        (((s.compareAndSwapState c fr dst).2.2.1.closedBroadcast = true) ↔
          (fr ≠ StateClosed ∧ dst = StateClosed)) ∧
        (((s.compareAndSwapState c fr dst).2.2.1.removedStream = true) ↔
          (fr ≠ StateClosed ∧ dst = StateClosed)) ∧
        (((s.compareAndSwapState c fr dst).2.2.1.recvFlowReturned = true) ↔
          (fr ≠ StateClosed ∧ dst = StateClosed ∧ s.recvFlow.isSome = true)) ∧
        (((s.compareAndSwapState c fr dst).2.2.1.cancelledWriter = true) ↔
          ((fr ≠ StateClosed ∧ dst = StateClosed) ∨
            (fr = StateOpen ∧ dst = StateHalfClosedLocal))) ∧
        (((s.compareAndSwapState c fr dst).2.2.1.sendFlowCancelled = true) ↔
          ((fr ≠ StateClosed ∧ dst = StateClosed ∧ s.sendFlow.isSome = true) ∨
            (fr = StateOpen ∧ dst = StateHalfClosedLocal)))) ∧
    (∀ (s : Stream) (c : Conn),
        s.state = StateClosed →
        s.compareAndSwapState c StateClosed StateClosed = (s, c, Effects.noEffects, true)) ∧
    (∀ (sid : Nat) (c : Conn) (ops : List Op),
        countTrue Effects.incremented (runOps (newStream sid) c ops).2 ≤ 1 ∧
        countTrue Effects.decremented (runOps (newStream sid) c ops).2 ≤
          countTrue Effects.incremented (runOps (newStream sid) c ops).2 ∧
        countTrue Effects.closedBroadcast (runOps (newStream sid) c ops).2 ≤ 1 ∧
        (activeState (runOps (newStream sid) c ops).1.1.state = true →
          countTrue Effects.incremented (runOps (newStream sid) c ops).2 = 1 ∧
          countTrue Effects.decremented (runOps (newStream sid) c ops).2 = 0) ∧
        ((runOps (newStream sid) c ops).1.1.state = StateClosed →
          countTrue Effects.decremented (runOps (newStream sid) c ops).2 =
            countTrue Effects.incremented (runOps (newStream sid) c ops).2 ∧
          countTrue Effects.closedBroadcast (runOps (newStream sid) c ops).2 = 1)) := by
  refine ⟨?_, ?_, ?_, ?_⟩
  · intro s c fr dst h
    simp [Stream.compareAndSwapState, h, Effects.noEffects]
  · intro s c fr dst h
    obtain ⟨hswap, hstate, hrest⟩ := cas_spec s c fr dst h
    obtain ⟨_, _, _, _, _, _, hrecv, hsend, hinc, hdec, hclo, hrem, hret, hcw, hsfc, _⟩ := hrest
    refine ⟨?_, ?_, ?_, ?_, ?_, ?_, ?_⟩
    · rw [hinc]; simp [Bool.and_eq_true]
    · rw [hdec]; simp [Bool.and_eq_true, beq_iff_eq]
    · rw [hclo]; simp [Bool.and_eq_true, beq_iff_eq, bne_iff_ne]
    · rw [hrem]; simp [Bool.and_eq_true, beq_iff_eq, bne_iff_ne]
    · rw [hret]; simp [Bool.and_eq_true, beq_iff_eq, bne_iff_ne, and_assoc]
    · rw [hcw]; simp [Bool.and_eq_true, Bool.or_eq_true, beq_iff_eq, bne_iff_ne]
    · rw [hsfc]; simp [Bool.and_eq_true, Bool.or_eq_true, beq_iff_eq, bne_iff_ne, and_assoc]
  · intro s c h
    rcases s with ⟨sid, st, f, lw, eos, rs, rr, rf, sf, cc⟩
    simp only at h
    subst h
    rfl
  · intro sid c ops
    have h0 : goodCounts (newStream sid).state 0 0 0 := by
      refine ⟨fun _ => ⟨rfl, rfl, rfl⟩, fun h => ?_, fun h => ?_⟩ <;>
        simp [newStream, rank] at h
    have hrun := run_counts ops (newStream sid) c 0 0 0 h0
    simp only [Nat.zero_add] at hrun
    obtain ⟨g0, g1, g2⟩ := hrun
    have hr := rank_le_two (runOps (newStream sid) c ops).1.1.state
    refine ⟨?_, ?_, ?_, ?_, ?_⟩
    · omega
    · omega
    · omega
    · intro ha
      have := (active_iff_rank1 _).mp ha
      exact ⟨(g1 this).1, (g1 this).2.1⟩
    · intro hc
      have := (closed_iff_rank2 _).mp hc
      obtain ⟨he, hle, hb⟩ := g2 this
      exact ⟨he.symm, hb⟩

/-- Witness for C5: a Closed→Closed swap on a concrete closed stream
succeeds but performs none of the side effects. -/
theorem c5_effects_exactly_once_witness :
    Stream.compareAndSwapState
        { id := 2, state := StateClosed, frame := { frameType := FrameData, endStream := false },
          lastWritten := FrameData, sawEOS := false, resetSent := false,
          resetReceived := false, recvFlow := none, sendFlow := none, closeChClosed := true }
        { server := true, initialWindowSize := 65535, remoteInitialWindowSize := 65535,
          numStreams := 0, remoteNumStreams := 0, hasStream := false }
        StateClosed StateClosed =
      ({ id := 2, state := StateClosed, frame := { frameType := FrameData, endStream := false },
          lastWritten := FrameData, sawEOS := false, resetSent := false,
          resetReceived := false, recvFlow := none, sendFlow := none, closeChClosed := true },
        { server := true, initialWindowSize := 65535, remoteInitialWindowSize := 65535,
          numStreams := 0, remoteNumStreams := 0, hasStream := false },
        Effects.noEffects, true) := by
  exact c5_effects_exactly_once.2.2.1
    { id := 2, state := StateClosed, frame := { frameType := FrameData, endStream := false },
      lastWritten := FrameData, sawEOS := false, resetSent := false,
      resetReceived := false, recvFlow := none, sendFlow := none, closeChClosed := true }
    { server := true, initialWindowSize := 65535, remoteInitialWindowSize := 65535,
      numStreams := 0, remoteNumStreams := 0, hasStream := false }
    rfl

/-- C7: on the winning activation swap the receive window is created
sized to the local advertised initial window, the send window is created
sized to the peer-advertised initial window exactly when the destination
is not HalfClosedLocal; a non-activation swap never creates either
window; and along any trace from a fresh stream, neither window exists
while the stream is still pre-active. -/
theorem c7_window_creation :
    (∀ (s : Stream) (c : Conn) (fr dst : StreamState),
        s.state = fr → preActive fr = true → activeState dst = true →
        (s.compareAndSwapState c fr dst).1.recvFlow =
            some { win := c.initialWindowSize, winUpperBound := c.initialWindowSize,
                   processedWin := c.initialWindowSize } ∧
          (dst ≠ StateHalfClosedLocal →
            (s.compareAndSwapState c fr dst).1.sendFlow =
              some { window := c.remoteInitialWindowSize, cancelled := false }) ∧
          (dst = StateHalfClosedLocal →
            (s.compareAndSwapState c fr dst).1.sendFlow = s.sendFlow)) ∧
    (∀ (s : Stream) (c : Conn) (fr dst : StreamState),
        s.state = fr → ¬(preActive fr = true ∧ activeState dst = true) →
        (s.compareAndSwapState c fr dst).1.recvFlow = s.recvFlow ∧
          (s.sendFlow = none → (s.compareAndSwapState c fr dst).1.sendFlow = none)) ∧
    (∀ (sid : Nat) (c : Conn) (ops : List Op),
        preActive (runOps (newStream sid) c ops).1.1.state = true →
        (runOps (newStream sid) c ops).1.1.recvFlow = none ∧
          (runOps (newStream sid) c ops).1.1.sendFlow = none) := by
  refine ⟨?_, ?_, ?_⟩
  · intro s c fr dst h hpre hact
    obtain ⟨hswap, hstate, hrest⟩ := cas_spec s c fr dst h
    obtain ⟨_, _, _, _, _, _, hrecv, hsend, _⟩ := hrest
    refine ⟨?_, ?_, ?_⟩
    · rw [hrecv, hpre, hact]; rfl
    · intro hne; rw [hsend, hpre, hact]; simp [hne]
    · intro heq; rw [hsend, hpre, hact]; simp [heq]
  · intro s c fr dst h hno
    obtain ⟨hswap, hstate, hrest⟩ := cas_spec s c fr dst h
    obtain ⟨_, _, _, _, _, _, hrecv, hsend, _⟩ := hrest
    have hfalse : (preActive fr && activeState dst) = false := by
      cases hp : preActive fr <;> cases ha : activeState dst <;> simp_all
    constructor
    · rw [hrecv, hfalse]; rfl
    · intro hnone
      rw [hsend, hfalse, hnone]
      simp
  · intro sid c ops hpre
    have hr0 : rank (runOps (newStream sid) c ops).1.1.state = 0 :=
      preActive_rank0 _ hpre
    have h := run_flows ops (newStream sid) c hr0
    exact ⟨h.1, h.2⟩

/-- Witness for C7 at a concrete activation: the Idle→Open swap of a
fresh stream creates both windows from the connection's two advertised
initial window sizes. -/
theorem c7_window_creation_witness :
    (Stream.compareAndSwapState (newStream 5)
        { server := false, initialWindowSize := 65535, remoteInitialWindowSize := 32768,
          numStreams := 0, remoteNumStreams := 0, hasStream := false }
        StateIdle StateOpen).1.recvFlow =
      some { win := 65535, winUpperBound := 65535, processedWin := 65535 } ∧
    (Stream.compareAndSwapState (newStream 5)
        { server := false, initialWindowSize := 65535, remoteInitialWindowSize := 32768,
          numStreams := 0, remoteNumStreams := 0, hasStream := false }
        StateIdle StateOpen).1.sendFlow =
      some { window := 32768, cancelled := false } := by
  have h := c7_window_creation.1 (newStream 5)
    { server := false, initialWindowSize := 65535, remoteInitialWindowSize := 32768,
      numStreams := 0, remoteNumStreams := 0, hasStream := false }
    StateIdle StateOpen rfl rfl rfl
  exact ⟨h.1, h.2.1 (by decide)⟩

/-- Result of the transmit callback `stream.writeTo`: the updated stream
and connection, the effects of the transition it drove (if any), the
outcome delivered to the waiting write caller on the completion channel
(`true` = the flush failed), and whether the send-direction transition
was driven. -/
structure WriteToResult where
  stream : Stream
  conn : Conn
  effects : Effects
  delivered : Bool
  transitioned : Bool
deriving DecidableEq, Repr

/-- `stream.writeTo` (`stream.go` lines 155–164): encode/flush the
pending frame through the writer (the flush outcome is the `flushErr`
parameter, the encoding itself being outside this core), record the frame
kind as last transmitted and whether end-of-stream was set, deliver the
flush outcome on `werr`, and if the flush succeeded with end-of-stream
set drive the send-direction transition for that kind with end-of-stream
true. -/
def Stream.writeTo (s : Stream) (c : Conn) (flushErr : Bool) : WriteToResult :=
  let s1 := { s with lastWritten := s.frame.frameType, sawEOS := s.frame.endStream }
  if s1.sawEOS && !flushErr then
    let r := s1.transition c false s1.lastWritten true
    { stream := r.1, conn := r.2.1, effects := r.2.2.1, delivered := flushErr,
      transitioned := true }
  else
    { stream := s1, conn := c, effects := Effects.noEffects, delivered := flushErr,
      transitioned := false }

/-- `stream.transition` never changes the last-written kind or the
end-of-stream-seen flag. -/
theorem transition_preserves_write_marks (s : Stream) (c : Conn) (recv : Bool)
    (frameType : FrameType) (endStream : Bool) :
    (s.transition c recv frameType endStream).1.lastWritten = s.lastWritten ∧
      (s.transition c recv frameType endStream).1.sawEOS = s.sawEOS := by
  rcases hT : s.state.transition recv frameType endStream with _ | dst
  · constructor <;> simp [Stream.transition, hT]
  · obtain ⟨hswap, hstate, hrest⟩ := cas_spec s c s.state dst rfl
    obtain ⟨_, _, hlw, hsaw, _⟩ := hrest
    constructor
    · have hA : (s.transition c recv frameType endStream).1.lastWritten =
          (s.compareAndSwapState c s.state dst).1.lastWritten := by
        simp only [Stream.transition, hT]
        split <;> (try split) <;> rfl
      rw [hA, hlw]
    · have hA : (s.transition c recv frameType endStream).1.sawEOS =
          (s.compareAndSwapState c s.state dst).1.sawEOS := by
        simp only [Stream.transition, hT]
        split <;> (try split) <;> rfl
      rw [hA, hsaw]

/-- C8: the transmit callback records the pending frame's kind as last
transmitted, records its end-of-stream flag, delivers the flush outcome
to the waiting caller, and drives the send-direction transition with
end-of-stream true exactly when the flush succeeded and end-of-stream was
set. -/
theorem c8_writeTo_behaviour (s : Stream) (c : Conn) (flushErr : Bool) :
    (s.writeTo c flushErr).stream.lastWritten = s.frame.frameType ∧
      (s.writeTo c flushErr).stream.sawEOS = s.frame.endStream ∧
      (s.writeTo c flushErr).delivered = flushErr ∧
      ((s.writeTo c flushErr).transitioned = (s.frame.endStream && !flushErr)) ∧
      ((s.frame.endStream && !flushErr) = true →
        ((s.writeTo c flushErr).stream,
          (s.writeTo c flushErr).conn,
          (s.writeTo c flushErr).effects) =
          ((Stream.transition
              { s with lastWritten := s.frame.frameType, sawEOS := s.frame.endStream }
              c false s.frame.frameType true).1,
            (Stream.transition
              { s with lastWritten := s.frame.frameType, sawEOS := s.frame.endStream }
              c false s.frame.frameType true).2.1,
            (Stream.transition
              { s with lastWritten := s.frame.frameType, sawEOS := s.frame.endStream }
              c false s.frame.frameType true).2.2.1)) := by
  have hP := transition_preserves_write_marks
      { s with lastWritten := s.frame.frameType, sawEOS := s.frame.endStream } c false
      s.frame.frameType true
  cases hC : s.frame.endStream && !flushErr <;>
    simp [Stream.writeTo, hC, hP.1, hP.2, Effects.noEffects]

/-- Witness for C8 at a concrete successful end-of-stream flush. -/
theorem c8_writeTo_behaviour_witness :
    (Stream.writeTo
        { id := 1, state := StateOpen, frame := { frameType := FrameData, endStream := true },
          lastWritten := FrameHeaders, sawEOS := false, resetSent := false,
          resetReceived := false,
          recvFlow := some { win := 65535, winUpperBound := 65535, processedWin := 65535 },
          sendFlow := some { window := 65535, cancelled := false }, closeChClosed := false }
        { server := false, initialWindowSize := 65535, remoteInitialWindowSize := 65535,
          numStreams := 1, remoteNumStreams := 0, hasStream := true }
        false).stream.lastWritten = FrameData := by
  exact (c8_writeTo_behaviour
    { id := 1, state := StateOpen, frame := { frameType := FrameData, endStream := true },
      lastWritten := FrameHeaders, sawEOS := false, resetSent := false,
      resetReceived := false,
      recvFlow := some { win := 65535, winUpperBound := 65535, processedWin := 65535 },
      sendFlow := some { window := 65535, cancelled := false }, closeChClosed := false }
    { server := false, initialWindowSize := 65535, remoteInitialWindowSize := 65535,
      numStreams := 1, remoteNumStreams := 0, hasStream := true }
    false).1

/-- The possible outcomes of one `stream.write` call before any
flow-control interaction. -/
inductive WriteStep
  | errConnClosed
  | errStreamClosed
  | enqueuedAwait
  | errBadFrameType (t : FrameType)
  | flowPath
deriving DecidableEq, Repr

/-- The dispatch decision of `stream.write` (`stream.go` lines 77–99):
the select over the connection/stream closure signals and the
serialization token, the sawEOS check, the headers fast path that
enqueues and blocks on `werr`, and the `*DataFrame` type assertion whose
failure is the bad-flow-control-frame-type error.  The frame structs live
outside `stream.go`; a frame is a `*DataFrame` exactly when its kind is
data. -/
def writeDispatch (connClosed streamClosed sawEOS : Bool) (frameType : FrameType) :
    WriteStep :=
  if connClosed then .errConnClosed
  else if streamClosed then .errStreamClosed
  else if sawEOS then .errStreamClosed
  else if frameType = FrameHeaders then .enqueuedAwait
  else if frameType ≠ FrameData then .errBadFrameType frameType
  else .flowPath

/-- C9 counterexample: a priority frame is a non-data frame, yet with the
token acquired and no end-of-stream transmitted it is not handed to the
write dispatcher — it fails with the bad-flow-control-frame-type error. -/
theorem c9_counterexample :
    writeDispatch false false false FramePriority = .errBadFrameType FramePriority ∧
      writeDispatch false false false FramePriority ≠ .enqueuedAwait := by
  decide

/-- C9 (amended): after the serialization token is acquired and with
end-of-stream not yet transmitted, a headers frame is handed directly to
the write dispatcher with the caller blocking on the completion signal,
and every other non-data frame fails with the bad-flow-control-frame-type
error without reaching the dispatcher or the flow-control allocator. -/
theorem c9_nondata_dispatch :
    ∀ frameType : FrameType, frameType ≠ FrameData →
      writeDispatch false false false frameType =
        (if frameType = FrameHeaders then .enqueuedAwait
         else .errBadFrameType frameType) := by
  decide

/-- Witness for C9 at the headers frame. -/
theorem c9_nondata_dispatch_witness :
    writeDispatch false false false FrameHeaders = WriteStep.enqueuedAwait := by
  have h := c9_nondata_dispatch FrameHeaders (by decide)
  simpa using h

/-- The fields of a `DataFrame` that `stream.write` reads: `DataLen`,
`PadLen` (a uint8 in Go, hence at most 255) and the end-of-stream flag. -/
structure DataFrame where
  dataLen : Nat
  padLen : Nat
  endStream : Bool
deriving DecidableEq, Repr

/-- One transmitted chunk: its payload length, its `PadLen` field (set
through a uint8 conversion in Go, hence the mod 256 in the loop) and its
end-of-stream flag. -/
structure DataChunk where
  dataLen : Nat
  padLen : Nat
  endStream : Bool
deriving DecidableEq, Repr

/-- The fragmentation loop of `stream.write` (`stream.go` lines 114–152,
the `again:` loop), on an error-free run.  `alloc` is the flow-control
allocator (`allocateBytes`, outside this core), called with the remaining
byte count and returning the granted byte count; `allowed` is the grant
for the current iteration.  The Go loop is unbounded; `fuel` bounds the
iterations so the function is total, `none` meaning the fuel ran out —
the termination theorems relate this to the real loop. -/
def writeLoop (alloc : Nat → Nat) (eos : Bool) :
    Nat → Nat → Nat → Nat → Option (List DataChunk)
  | 0, _, _, _ => none
  | fuel + 1, dataLen, padLen, allowed =>
    let chunkData := min dataLen allowed
    let padding := min (allowed - chunkData) padLen
    let dataLen2 := dataLen - chunkData
    let padLen2 := padLen - padding
    let lastFrame := dataLen2 + padLen2 == 0
    let chunk : DataChunk := ⟨chunkData, padding % 256, eos && lastFrame⟩
    if lastFrame then some [chunk]
    else
      (writeLoop alloc eos fuel dataLen2 padLen2 (alloc (dataLen2 + padLen2))).map
        (fun rest => chunk :: rest)

/-- The data path of `stream.write` (`stream.go` lines 101–152): request
an allocation for payload+padding; on a full grant transmit the frame
as-is (one transmitted unit); otherwise fragment through the loop. -/
def writeData (alloc : Nat → Nat) (fuel : Nat) (f : DataFrame) :
    Option (List DataChunk) :=
  let wanted := f.dataLen + f.padLen
  let allowed := alloc wanted
  if allowed == wanted then some [⟨f.dataLen, f.padLen, f.endStream⟩]
  else writeLoop alloc f.endStream fuel f.dataLen f.padLen allowed

/-- The allocator of the fragmentation claim: each call grants
`min(remaining, K)`. -/
def allocMin (K : Nat) : Nat → Nat := fun n => min n K

/-- Total payload carried by a chunk list. -/
def sumData (l : List DataChunk) : Nat := (l.map DataChunk.dataLen).sum

/-- Total padding carried by a chunk list. -/
def sumPad (l : List DataChunk) : Nat := (l.map DataChunk.padLen).sum

/-- Padding is drawn only after the payload is exhausted: once a chunk
carries padding, every later chunk carries no payload. -/
def payloadFirst : List DataChunk → Prop
  | [] => True
  | ck :: rest => (0 < ck.padLen → ∀ ck2 ∈ rest, ck2.dataLen = 0) ∧ payloadFirst rest

/-- The end-of-stream flag sits on the last chunk alone and equals the
original frame's flag. -/
def eosTail (eos : Bool) (l : List DataChunk) : Prop :=
  ∃ body lastC, l = body ++ [lastC] ∧ lastC.endStream = eos ∧
    ∀ ck ∈ body, ck.endStream = false

/-- Unfolding of one loop iteration when it is the last chunk. -/
theorem writeLoop_succ_last (alloc : Nat → Nat) (eos : Bool) (fuel d p a : Nat)
    (h : d - min d a + (p - min (a - min d a) p) = 0) :
    writeLoop alloc eos (fuel + 1) d p a =
      some [⟨min d a, (min (a - min d a) p) % 256, eos⟩] := by
  simp [writeLoop, h]

/-- Unfolding of one loop iteration when more remains. -/
theorem writeLoop_succ_cont (alloc : Nat → Nat) (eos : Bool) (fuel d p a : Nat)
    (h : d - min d a + (p - min (a - min d a) p) ≠ 0) :
    writeLoop alloc eos (fuel + 1) d p a =
      (writeLoop alloc eos fuel (d - min d a) (p - min (a - min d a) p)
          (alloc (d - min d a + (p - min (a - min d a) p)))).map
        (fun rest => (⟨min d a, (min (a - min d a) p) % 256, false⟩ : DataChunk) :: rest) := by
  have hb : ((d - min d a + (p - min (a - min d a) p)) == 0) = false := by
    simpa using h
  simp [writeLoop, hb]

/-- Under an allocator that always grants 0, the loop never terminates
when bytes remain. -/
theorem writeLoop_zero_none (eos : Bool) (d p : Nat) (h : 0 < d + p) :
    ∀ fuel, writeLoop (fun _ => 0) eos fuel d p 0 = none := by
  intro fuel
  induction fuel with
  | zero => rfl
  | succ fuel ih =>
    have hne : d - min d 0 + (p - min (0 - min d 0) p) ≠ 0 := by
      simp only [Nat.min_zero, Nat.sub_zero, Nat.zero_sub, Nat.zero_min]
      omega
    rw [writeLoop_succ_cont _ _ _ _ _ _ hne]
    simp only [Nat.min_zero, Nat.sub_zero, Nat.zero_sub, Nat.zero_min] at ih ⊢
    rw [ih]
    rfl

/-- Correctness of the fragmentation loop under any allocator that
grants at least one byte and at most the remaining amount: with enough
fuel the loop completes, the chunk payloads and paddings sum to the
remaining payload and padding, every chunk fits the grant bound `B`,
padding is drawn only after the payload is exhausted, and the
end-of-stream flag sits on the last chunk alone. -/
theorem writeLoop_spec (alloc : Nat → Nat) (B : Nat)
    (hv1 : ∀ n, alloc n ≤ n) (eos : Bool) :
    ∀ (fuel d p a : Nat),
      1 ≤ a → a ≤ d + p → a ≤ B →
      (∀ m, 0 < m → m ≤ d + p → 1 ≤ alloc m) →
      (∀ m, 0 < m → m ≤ d + p → alloc m ≤ B) →
      d + p ≤ fuel → p ≤ 255 →
      ∃ chunks,
        writeLoop alloc eos fuel d p a = some chunks ∧
          sumData chunks = d ∧ sumPad chunks = p ∧
          (∀ ck ∈ chunks, ck.dataLen + ck.padLen ≤ B ∧ ck.padLen ≤ p) ∧
          payloadFirst chunks ∧ eosTail eos chunks := by
  intro fuel
  induction fuel with
  | zero => intro d p a h1 h2 h3 hg hB h4 h5; omega
  | succ fuel ih =>
    intro d p a h1 h2 h3 hg hB h4 h5
    have hcd : min d a ≤ d := Nat.min_le_left _ _
    have hcda : min d a ≤ a := Nat.min_le_right _ _
    have hpd : min (a - min d a) p ≤ p := Nat.min_le_right _ _
    have htot : min d a + min (a - min d a) p = a := by omega
    have hmod : (min (a - min d a) p) % 256 = min (a - min d a) p :=
      Nat.mod_eq_of_lt (by omega)
    by_cases hlast : d - min d a + (p - min (a - min d a) p) = 0
    · rw [writeLoop_succ_last alloc eos fuel d p a hlast]
      refine ⟨_, rfl, ?_, ?_, ?_, ?_, ?_⟩
      · simp [sumData]; omega
      · simp [sumPad, hmod]; omega
      · intro ck hck
        simp only [List.mem_singleton] at hck
        subst hck
        refine ⟨?_, ?_⟩ <;> simp [hmod] <;> omega
      · exact ⟨fun _ ck2 hin => absurd hin (List.not_mem_nil _), trivial⟩
      · exact ⟨[], _, rfl, rfl, fun ck hin => absurd hin (List.not_mem_nil _)⟩
    · rw [writeLoop_succ_cont alloc eos fuel d p a hlast]
      have hrpos : 0 < d - min d a + (p - min (a - min d a) p) := Nat.pos_of_ne_zero hlast
      have ha2le := hv1 (d - min d a + (p - min (a - min d a) p))
      have ha2ge := hg _ hrpos (by omega)
      have ha2B : alloc (d - min d a + (p - min (a - min d a) p)) ≤ B :=
        hB _ hrpos (by omega)
      have hrec := ih (d - min d a) (p - min (a - min d a) p)
        (alloc (d - min d a + (p - min (a - min d a) p)))
        ha2ge ha2le ha2B
        (fun m hm hmle => hg m hm (by omega))
        (fun m hm hmle => hB m hm (by omega))
        (by omega) (by omega)
      obtain ⟨chunks, hc, hsd, hsp, hbud, hpf, het⟩ := hrec
      rw [hc]
      refine ⟨_, rfl, ?_, ?_, ?_, ?_, ?_⟩
      · simp only [sumData, List.map_cons, List.sum_cons] at hsd ⊢
        omega
      · simp only [sumPad, List.map_cons, List.sum_cons, hmod] at hsp ⊢
        omega
      · intro ck hck
        rcases List.mem_cons.mp hck with hck | hck
        · subst hck
          refine ⟨?_, ?_⟩ <;> simp [hmod] <;> omega
        · obtain ⟨hb1, hb2⟩ := hbud ck hck
          exact ⟨hb1, by omega⟩
      · refine ⟨?_, hpf⟩
        intro hpad ck2 hck2
        simp only [hmod] at hpad
        have hd2 : d - min d a = 0 := by omega
        have hle : ck2.dataLen ≤ sumData chunks := by
          apply List.single_le_sum (fun x _ => Nat.zero_le x)
          exact List.mem_map_of_mem DataChunk.dataLen hck2
        omega
      · obtain ⟨body, lastC, hsplit, hlaste, hbody⟩ := het
        refine ⟨⟨min d a, (min (a - min d a) p) % 256, false⟩ :: body, lastC, ?_, hlaste, ?_⟩
        · rw [hsplit]; rfl
        · intro ck hck
          rcases List.mem_cons.mp hck with hck | hck
          · subst hck; rfl
          · exact hbody ck hck

/-- Chunk count of the loop under the `min(remaining, K)` allocator:
`⌈(d+p)/K⌉` chunks. -/
theorem writeLoop_len (K : Nat) (hK : 1 ≤ K) (eos : Bool) :
    ∀ (fuel d p : Nat), 0 < d + p → d + p ≤ fuel →
      ∃ chunks,
        writeLoop (allocMin K) eos fuel d p (allocMin K (d + p)) = some chunks ∧
          chunks.length = (d + p + K - 1) / K := by
  intro fuel
  induction fuel with
  | zero => intro d p h1 h2; omega
  | succ fuel ih =>
    intro d p h1 h2
    by_cases hle : d + p ≤ K
    · have ha : allocMin K (d + p) = d + p := by simp only [allocMin]; omega
      rw [ha]
      have hlast : d - min d (d + p) + (p - min ((d + p) - min d (d + p)) p) = 0 := by
        omega
      rw [writeLoop_succ_last _ _ _ _ _ _ hlast]
      refine ⟨_, rfl, ?_⟩
      have hdiv : (d + p + K - 1) / K = 1 :=
        Nat.div_eq_of_lt_le (by omega) (by omega)
      simp [hdiv]
    · have ha : allocMin K (d + p) = K := by simp only [allocMin]; omega
      rw [ha]
      have hlast : d - min d K + (p - min (K - min d K) p) ≠ 0 := by omega
      rw [writeLoop_succ_cont _ _ _ _ _ _ hlast]
      have hrem : d - min d K + (p - min (K - min d K) p) = d + p - K := by omega
      obtain ⟨chunks, hc, hlen⟩ :=
        ih (d - min d K) (p - min (K - min d K) p) (by omega) (by omega)
      rw [hc]
      refine ⟨_, rfl, ?_⟩
      rw [hrem] at hlen
      have hstep : (d + p + K - 1) / K = ((d + p - K) + K - 1) / K + 1 := by
        have he : d + p + K - 1 = ((d + p - K) + K - 1) + K := by omega
        rw [he, Nat.add_div_right _ (by omega)]
      simp only [List.length_cons]
      omega

/-- C4 counterexample: an empty data frame (payload 0, padding 0) is
transmitted as exactly one chunk by the full-grant path, while the
claimed formula gives ⌈0/K⌉ = 0 chunks. -/
theorem c4_counterexample :
    writeData (allocMin 1) 0 { dataLen := 0, padLen := 0, endStream := true } =
        some [{ dataLen := 0, padLen := 0, endStream := true }] ∧
      (1 : Nat) ≠ (0 + 0 + 1 - 1) / 1 := by
  decide

/-- C4 (amended): for a data write of payload `S` and padding `P` under
the `min(remaining, K)` allocator with `K ≥ 1`, the write transmits
exactly `max 1 ⌈(S+P)/K⌉` chunks (one chunk when `S+P = 0`, `⌈(S+P)/K⌉`
otherwise); payloads sum to `S`, paddings sum to `P`, each chunk's
payload+padding fits the grant bound `K` with padding at most the
original `P` and drawn only after the payload is exhausted, and the
end-of-stream flag sits on the final chunk alone, equal to the original
frame's flag. -/
theorem c4_fragmentation (S P K : Nat) (eos : Bool) (hK : 1 ≤ K) (hP : P ≤ 255) :
    ∃ chunks,
      writeData (allocMin K) (S + P) { dataLen := S, padLen := P, endStream := eos } =
          some chunks ∧
        chunks.length = max 1 ((S + P + K - 1) / K) ∧
        sumData chunks = S ∧ sumPad chunks = P ∧
        (∀ ck ∈ chunks, ck.dataLen + ck.padLen ≤ K ∧ ck.padLen ≤ P) ∧
        payloadFirst chunks ∧ eosTail eos chunks := by
  by_cases hle : S + P ≤ K
  · have ha : allocMin K (S + P) = S + P := by simp only [allocMin]; omega
    refine ⟨[{ dataLen := S, padLen := P, endStream := eos }], ?_, ?_, ?_, ?_, ?_, ?_, ?_⟩
    · simp [writeData, ha]
    · rcases Nat.eq_zero_or_pos (S + P) with h0 | hpos
      · have hdiv : (S + P + K - 1) / K = 0 := Nat.div_eq_of_lt (by omega)
        simp [hdiv]
      · have hdiv : (S + P + K - 1) / K = 1 :=
          Nat.div_eq_of_lt_le (by omega) (by omega)
        simp [hdiv]
    · simp [sumData]
    · simp [sumPad]
    · intro ck hck
      simp only [List.mem_singleton] at hck
      subst hck
      exact ⟨by simp; omega, by simp⟩
    · exact ⟨fun _ ck2 hin => absurd hin (List.not_mem_nil _), trivial⟩
    · exact ⟨[], _, rfl, rfl, fun ck hin => absurd hin (List.not_mem_nil _)⟩
  · have ha : allocMin K (S + P) = K := by simp only [allocMin]; omega
    have hne : ¬((allocMin K (S + P) == S + P) = true) := by
      rw [ha]
      simp only [beq_iff_eq]
      omega
    obtain ⟨chunks, hc, hsd, hsp, hbud, hpf, het⟩ :=
      writeLoop_spec (allocMin K) K (fun n => Nat.min_le_left _ _) eos (S + P) S P
        (allocMin K (S + P)) (by rw [ha]; omega) (by rw [ha]; omega) (by rw [ha])
        (fun m hm _ => by simp only [allocMin]; omega)
        (fun m _ _ => Nat.min_le_right _ _)
        (le_refl _) hP
    obtain ⟨chunks2, hc2, hlen2⟩ := writeLoop_len K hK eos (S + P) S P (by omega) (le_refl _)
    rw [hc] at hc2
    have hs : chunks2 = chunks := by
      injection hc2.symm
    rw [hs] at hlen2
    refine ⟨chunks, ?_, ?_, hsd, hsp, hbud, hpf, het⟩
    · simp [writeData, hne, hc]
    · have hge : 1 ≤ (S + P + K - 1) / K := by
        rw [Nat.le_div_iff_mul_le (by omega : 0 < K)]
        omega
      rw [Nat.max_eq_right hge]
      exact hlen2

/-- Witness for C4 at S = 5, P = 2, K = 3. -/
theorem c4_fragmentation_witness :
    ∃ chunks,
      writeData (allocMin 3) (5 + 2) { dataLen := 5, padLen := 2, endStream := true } =
          some chunks ∧
        chunks.length = max 1 ((5 + 2 + 3 - 1) / 3) ∧
        sumData chunks = 5 ∧ sumPad chunks = 2 ∧
        (∀ ck ∈ chunks, ck.dataLen + ck.padLen ≤ 3 ∧ ck.padLen ≤ 2) ∧
        payloadFirst chunks ∧ eosTail true chunks :=
  c4_fragmentation 5 2 3 true (by decide) (by decide)

/-- C10: under any allocator granting at least one byte and at most the
remaining amount with no errors, the fragmentation loop terminates within
`S+P` iterations and `stream.write`'s data path returns a result; under a
zero-byte grant with bytes remaining, an iteration submits a chunk with
zero payload and zero padding, leaves the remainder unchanged, and the
loop never terminates. -/
theorem c10_loop_termination :
    (∀ (alloc : Nat → Nat),
        (∀ n, alloc n ≤ n) →
        (∀ n, 0 < n → 1 ≤ alloc n) →
        ∀ (f : DataFrame) (fuel : Nat),
          f.padLen ≤ 255 → f.dataLen + f.padLen ≤ fuel →
          (writeData alloc fuel f).isSome = true) ∧
    (∀ (eos : Bool) (d p fuel : Nat), 0 < d + p →
        writeLoop (fun _ => 0) eos (fuel + 1) d p 0 =
          (writeLoop (fun _ => 0) eos fuel d p 0).map
            (fun rest => ({ dataLen := 0, padLen := 0, endStream := false } : DataChunk)
              :: rest) ∧
        writeLoop (fun _ => 0) eos fuel d p 0 = none) := by
  constructor
  · intro alloc hv1 hv2 f fuel hp hf
    rcases f with ⟨S, P, eos⟩
    simp only at hp hf
    by_cases hfull : (alloc (S + P) == S + P) = true
    · simp [writeData, hfull]
    · have hne : alloc (S + P) ≠ S + P := by simpa using hfull
      have hpos : 0 < S + P := by
        rcases Nat.eq_zero_or_pos (S + P) with h0 | h
        · exfalso
          apply hne
          have := hv1 (S + P)
          omega
        · exact h
      obtain ⟨chunks, hc, _⟩ :=
        writeLoop_spec alloc (S + P) hv1 eos fuel S P (alloc (S + P))
          (hv2 _ hpos) (hv1 _) (hv1 _)
          (fun m hm _ => hv2 m hm)
          (fun m hm hmle => le_trans (hv1 m) hmle)
          hf hp
      simp [writeData, hfull, hc]
  · intro eos d p fuel h
    constructor
    · have hne : d - min d 0 + (p - min (0 - min d 0) p) ≠ 0 := by omega
      rw [writeLoop_succ_cont _ _ _ _ _ _ hne]
      simp
    · exact writeLoop_zero_none eos d p h fuel

/-- Witness for C10: a 3-byte write under a 1-byte-per-call allocator
completes with fuel 3. -/
theorem c10_loop_termination_witness :
    (writeData (fun n => min n 1) 3
        { dataLen := 2, padLen := 1, endStream := false }).isSome = true :=
  c10_loop_termination.1 (fun n => min n 1) (fun n => Nat.min_le_left _ _)
    (fun n h => by show 1 ≤ min n 1; omega)
    { dataLen := 2, padLen := 1, endStream := false } 3 (by decide) (by decide)

end Http2
